import Mathlib

/-!
Verification development for the Jain University course-and-career advisor
(`util_func_1.py`, `utils_def_1.py`, `app.py`).

The Python functions are shallowly embedded as executable Lean definitions.
Numeric answer/mark values are modelled as exact rationals (`ℚ`); Python
floats are thereby modelled exactly, as the claims under scrutiny are stated
"under exact (rational) arithmetic".  Database access is modelled by a pure
state record; the Neo4j driver being unavailable and a query raising are
modelled by explicit boolean parameters, since the Python code only ever
branches on those two events.
-/

/-! ## Python string primitives

`str.lower`, `str.strip` and `re.split` are modelled by structurally
recursive character-list functions (Lean's own `String.toLower`/`trim`/`split`
are definitionally opaque well-founded recursions; these versions compute the
same strings and evaluate in the kernel).  Case mapping is ASCII, which is all
the scrutinised inputs use. -/

/-- `str.lower()` (ASCII). -/
def pyLower (s : String) : String := String.mk (s.data.map Char.toLower)

/-- `str.strip()`: drop leading and trailing whitespace. -/
def pyStrip (s : String) : String :=
  String.mk
    (((s.data.dropWhile Char.isWhitespace).reverse.dropWhile Char.isWhitespace).reverse)

/-- Split on every character satisfying `p`, keeping empty pieces. -/
def splitCharsAux (p : Char → Bool) : List Char → List Char → List (List Char)
  | [], acc => [acc.reverse]
  | c :: t, acc =>
    if p c then acc.reverse :: splitCharsAux p t [] else splitCharsAux p t (c :: acc)

/-! ## RIASEC scoring (`calculate_riasec_scores`, util_func_1.py lines 354-425) -/

/-- The six RIASEC trait codes. -/
inductive Trait where
  | R | I | A | S | E | C
deriving DecidableEq, Repr

/-- A user answers mapping: question text to response value, `none` when the
question is absent from the mapping (`answers.get(question, 0)` then yields 0). -/
def Answers : Type := String → Option ℚ

/-- The 41 hard-coded questions of `calculate_riasec_scores`, in source order. -/
def RIASEC_QUESTIONS : List (String × Trait) := [
  ("I like to work on cars", .R),
  ("I like to build things", .R),
  ("I like putting things together or assembling things.", .R),
  ("I like to take care of animals", .R),
  ("I like to cook", .R),
  ("I am a practical person", .R),
  ("I like working outdoors", .R),
  ("I like working with numbers or charts", .I),
  ("I\x27m good at math", .I),
  ("I enjoy trying to figure out how things work", .I),
  ("I like to analyze things (problems/situations)", .I),
  ("I like to do puzzles", .I),
  ("I enjoy science", .I),
  ("I like to do experiments", .I),
  ("I like to teach or train people", .S),
  ("I like to play instruments or sing", .A),
  ("I like to read about art and music", .A),
  ("I like to draw", .A),
  ("I enjoy creative writing", .A),
  ("I am a creative person", .A),
  ("I like acting in plays", .A),
  ("I like helping people", .S),
  ("I like to get into discussions about issues", .S),
  ("I enjoy learning about other cultures", .S),
  ("I am interested in healing people", .S),
  ("I like trying to help people solve their problems", .S),
  ("I like to work in teams", .S),
  ("I am an ambitious person, I set goals for myself", .E),
  ("I would like to start my own business", .E),
  ("I am quick to take on new responsibilities", .E),
  ("I like selling things", .E),
  ("I like to lead", .E),
  ("I like to try to influence or persuade people", .E),
  ("I like to give speeches", .E),
  ("I like to organize things, (files, desks/offices)", .C),
  ("I like to have clear instructions to follow", .C),
  ("I wouldn\x27t mind working 8 hours per day in an office", .C),
  ("I pay attention to details", .C),
  ("I like to do filing or typing", .C),
  ("I am good at keeping records of my work", .C),
  ("I would like to work in an office", .C)]

/-- The trait keys of the `trait_responses` dict, in insertion order. -/
def traitList : List Trait := [.R, .I, .A, .S, .E, .C]

/-- One step of the loop `for question, trait in RIASEC_QUESTIONS:
trait_responses[trait].append(answers.get(question, 0))`. -/
def collectStep (ans : Answers) (acc : Trait → List ℚ) (p : String × Trait) :
    Trait → List ℚ :=
  fun t => if t = p.2 then acc t ++ [(ans p.1).getD 0] else acc t

/-- The `trait_responses` dict after the collection loop. -/
def trait_responses (ans : Answers) : Trait → List ℚ :=
  RIASEC_QUESTIONS.foldl (collectStep ans) (fun _ => [])

/-- The pre-normalization `scores[trait]`: `sum(responses)/len(responses)` when
the response list is nonempty, else `0.0`. -/
def raw_score (ans : Answers) (t : Trait) : ℚ :=
  let rs := trait_responses ans t
  if rs = [] then 0 else rs.sum / rs.length

/-- `total = sum(scores.values())`, taken in dict insertion order R I A S E C. -/
def riasec_total (ans : Answers) : ℚ :=
  (traitList.map (raw_score ans)).sum

/-- The returned `scores[trait]`: divided by the total when `total > 0`,
otherwise left as the raw average. -/
def riasec_scores (ans : Answers) (t : Trait) : ℚ :=
  if 0 < riasec_total ans then raw_score ans t / riasec_total ans
  else raw_score ans t

/-- `sorted(scores.items(), key=lambda x: x[1], reverse=True)` is a stable
descending sort of the six (trait, score) pairs.  `insertDesc` places the new
element after every already-placed element of greater-or-equal score,
which is exactly stability for the left-to-right fold below. -/
def insertDesc (x : Trait × ℚ) : List (Trait × ℚ) → List (Trait × ℚ)
  | [] => [x]
  | y :: ys => if y.2 < x.2 then x :: y :: ys else y :: insertDesc x ys

/-- Stable descending sort by score (the behaviour of Python's `sorted` with
`reverse=True` on the insertion-ordered dict items). -/
def sortDesc (l : List (Trait × ℚ)) : List (Trait × ℚ) :=
  l.foldl (fun acc x => insertDesc x acc) []

/-- Result record of `calculate_riasec_scores`. -/
structure RiasecResult where
  scores : Trait → ℚ
  top3 : List Trait
  riasec_vector : List ℚ

/-- Embedding of `calculate_riasec_scores` (util_func_1.py lines 354-425). -/
def calculate_riasec_scores (ans : Answers) : RiasecResult :=
  let s := riasec_scores ans
  let top3 := (sortDesc (traitList.map (fun t => (t, s t)))).take 3
  { scores := s
    top3 := top3.map Prod.fst
    riasec_vector := [s .R, s .I, s .A, s .S, s .E, s .C] }

/-- The question texts assigned to a trait, in source order. -/
def questions_for (t : Trait) : List String :=
  (RIASEC_QUESTIONS.filter (fun p => p.2 = t)).map Prod.fst

/-- Concrete answers mapping with one positive and one cancelling negative
response; reachable from the `/riasec` route, which passes the request JSON
to `calculate_riasec_scores` unvalidated. -/
def ansCex : Answers := fun q =>
  if q = "I like to work on cars" then some 1
  else if q = "I like working with numbers or charts" then some (-1)
  else some 0

/-- The all-missing answers mapping. -/
def ansZero : Answers := fun _ => none

/-- All-ones answers mapping (every question answered 1). -/
def ansOne : Answers := fun _ => some 1

/-! ## Dependency tree renderer (`get_course_dependencies`,
`build_dependency_tree`, util_func_1.py lines 913-1024).

`get_course_dependencies` runs a Cypher query collecting `REQUIRES` paths of
between 1 and 5 hops (`[:REQUIRES*1..5]`) and returns the single result record
(or `{}` when there is none); `build_dependency_tree` turns those paths into a
nested dict-of-dicts trie via `setdefault` and renders it recursively.  The
database is modelled by `DepEnv`: the record returned by the path query, plus
the flat course table consulted by the two fallback queries. -/

/-- A `{code: ..., title: ...}` map produced by the Cypher path comprehension;
either value may be null. -/
structure PathNode where
  code : Option String
  title : Option String
deriving DecidableEq, Repr

/-- Python string interpolation of a possibly-`None` value (`f"{code}"`). -/
def pyStr : Option String → String
  | none => "None"
  | some s => s

/-- `title or '[Title not available]'`: both `None` and `""` are falsy. -/
def orTitle : Option String → String
  | none => "[Title not available]"
  | some t => if t = "" then "[Title not available]" else t

/-- `display = f"{code} - {title or '[Title not available]'}"`. -/
def pathDisplay (n : PathNode) : String :=
  pyStr n.code ++ " - " ++ orTitle n.title

/-- The nested dict-of-dicts trie built by `build_dependency_tree`: a forest is
a dict, each entry holding a name, its child dict, and the remaining entries in
insertion order. -/
inductive Forest where
  | nil : Forest
  | cons (name : String) (children : Forest) (rest : Forest) : Forest
deriving DecidableEq, Repr

/-- `current.setdefault(display, {})` followed by updating the found/created
child in place: a new key is appended at the end (Python dict order). -/
def upsert (d : String) (k : Forest → Forest) : Forest → Forest
  | .nil => .cons d (k .nil) .nil
  | .cons n c r => if n = d then .cons n (k c) r else .cons n c (upsert d k r)

/-- The inner loop `for node in path[1:]: current = current.setdefault(...)`,
applied to an already-display-mapped path. -/
def insertPath : List String → Forest → Forest
  | [], f => f
  | d :: ds, f => upsert d (insertPath ds) f

/-- `tree = {}; for path in valid_paths: ...` (the trie construction loop). -/
def buildForest (valid_paths : List (List PathNode)) : Forest :=
  valid_paths.foldl (fun t p => insertPath ((p.drop 1).map pathDisplay) t) .nil

/-- `render_tree(subtree, prefix)`: one line per entry
(`"    "` for the first sibling, `"or  "` for the rest), then the recursively
rendered children under an extended prefix (`if children:` skips the empty
child dict, which renders to nothing anyway). -/
def Forest.render : Forest → String → Bool → List String
  | .nil, _, _ => []
  | .cons n c r, pre, first =>
    (pre ++ (if first then "    " else "or  ") ++ n)
      :: ((if c ≠ Forest.nil then Forest.render c (pre ++ "    ") true else [])
          ++ Forest.render r pre false)

/-- Number of entries (trie nodes) of the forest. -/
def Forest.count : Forest → Nat
  | .nil => 0
  | .cons _ c r => 1 + c.count + r.count

/-- A course row of the graph (the properties `build_dependency_tree`'s
fallback queries read). -/
structure CourseNode where
  course_code : String
  course_title : Option String
  prereq_course_codes : Option String
deriving DecidableEq, Repr

/-- The record returned by `get_course_dependencies` (minus the echoed
course code, which `build_dependency_tree` does not read): the course title,
its `prereq_course_codes` property, and the collected dependency paths under
the direction's key. -/
structure DepsRec where
  title : Option String
  prereq_codes : Option String
  paths : List (List PathNode)
deriving DecidableEq, Repr

/-- The database as seen by `build_dependency_tree`: the result of
`get_course_dependencies` (`none` models the empty record `{}`), and the
course table consulted by the two fallback queries. -/
structure DepEnv where
  deps : Option DepsRec
  courses : List CourseNode
deriving DecidableEq, Repr

/-- The `direction` argument (callers pass only these two strings). -/
inductive Dir where
  | prerequisites | postrequisites
deriving DecidableEq, Repr

/-- `deps.get("prereq_codes") or deps.get("prereq_course_codes") or ""`
(the record has no `prereq_course_codes` key, and `""` is falsy). -/
def rawPrereqs (d : DepsRec) : String :=
  match d.prereq_codes with
  | none => ""
  | some s => s

def isSepChar (c : Char) : Bool := c = ',' || c = ';' || c = '\n'

/-- `[c.strip() for c in re.split(r'[,;\n]+', raw) if c.strip()]`: splitting on
single separator chars instead of runs yields extra empty pieces which the
filter removes, so the result coincides. -/
def parse_codes (raw : String) : List String :=
  ((splitCharsAux (fun c => isSepChar c) raw.data []).map
    (fun l => pyStrip (String.mk l))).filter (fun s => s ≠ "")

/-- Python substring containment `needle in hay` over char lists. -/
def substrIn (needle : List Char) : List Char → Bool
  | [] => needle.isPrefixOf []
  | c :: t => needle.isPrefixOf (c :: t) || substrIn needle t

/-- The postrequisites fallback query
`MATCH (c:Course) WHERE c.prereq_course_codes CONTAINS $course_code ... LIMIT 200`
(`CONTAINS` on a null property is null, hence excluded). -/
def dependentCourses (env : DepEnv) (code : String) : List CourseNode :=
  (env.courses.filter (fun c =>
    match c.prereq_course_codes with
    | none => false
    | some s => substrIn code.data s.data)).take 200

/-- `titles_map.get(code, "")` built from the `UNWIND $codes ... OPTIONAL MATCH`
query: the matched course title, with null/missing collapsing to `""`. -/
def titleFor (env : DepEnv) (cd : String) : String :=
  match env.courses.find? (fun c => c.course_code == cd) with
  | some c => c.course_title.getD ""
  | none => ""

/-- `f"{course_code} - {course_title or '[Title not available]'}"`. -/
def headerOf (code : String) (d : DepsRec) : String :=
  code ++ " - " ++ orTitle d.title

/-- The two header lines `["📚 {header}", "─" * (len(header) + 4)]`. -/
def headerBlock (code : String) (d : DepsRec) : List String :=
  ["📚 " ++ headerOf code d,
   String.mk (List.replicate ((headerOf code d).length + 4) '─')]

/-- `[path for path in tree_paths if path and len(path) > 1]`. -/
def validPaths (d : DepsRec) : List (List PathNode) :=
  d.paths.filter (fun p => !p.isEmpty && decide (1 < p.length))

/-- `"\n".join(lines)`. -/
def joinLines : List String → String
  | [] => ""
  | [x] => x
  | x :: xs => x ++ "\n" ++ joinLines xs

def dirLabel : Dir → String
  | .prerequisites => "Prerequisites"
  | .postrequisites => "Courses This Unlocks"

/-- `connector = "    " if i == 0 else "or  "` enumeration of rendered rows. -/
def connLines (rows : List String) : List String :=
  rows.mapIdx (fun i r => (if i == 0 then "    " else "or  ") ++ r)

/-- The main branch: header block, direction label, then `render_tree(tree)`. -/
def treeLines (code : String) (dir : Dir) (d : DepsRec) : List String :=
  headerBlock code d ++ [dirLabel dir ++ ":"]
    ++ (buildForest (validPaths d)).render "" true

/-- The postrequisites fallback listing (lines of the
`if dependent_courses:` branch). -/
def postreqFallbackLines (code : String) (d : DepsRec) (dcs : List CourseNode) :
    List String :=
  headerBlock code d ++ ["Courses This Unlocks:"]
    ++ connLines (dcs.map (fun c => c.course_code ++ " - " ++ orTitle c.course_title))

/-- The prerequisites fallback listing built from the parsed
`prereq_course_codes`. -/
def prereqFallbackLines (env : DepEnv) (code : String) (d : DepsRec)
    (codes : List String) : List String :=
  headerBlock code d ++ ["Prerequisites:"]
    ++ connLines (codes.map (fun cd =>
        cd ++ " - " ++ (if titleFor env cd = "" then "[Title not available]"
                        else titleFor env cd)))

/-- Embedding of `build_dependency_tree` (util_func_1.py lines 939-1024),
producing the line list before the final `"\n".join`. -/
def build_dependency_tree_lines (env : DepEnv) (course_code : String)
    (direction : Dir) : Option (List String) :=
  match env.deps with
  | none => none
  | some d =>
    if (validPaths d).isEmpty ∧ direction = .postrequisites then
      if !(dependentCourses env course_code).isEmpty then
        some (postreqFallbackLines course_code d (dependentCourses env course_code))
      else none
    else if (validPaths d).isEmpty ∧ direction = .prerequisites then
      if (parse_codes (rawPrereqs d)).isEmpty then none
      else some (prereqFallbackLines env course_code d (parse_codes (rawPrereqs d)))
    else
      some (treeLines course_code direction d)

/-- `build_dependency_tree` as the Python function returns it:
`None`, or the joined string. -/
def build_dependency_tree (env : DepEnv) (course_code : String) (direction : Dir) :
    Option String :=
  (build_dependency_tree_lines env course_code direction).map joinLines

/-- The exact condition under which `build_dependency_tree` returns `None`:
empty course record, or no collected path of more than one node together with
the direction-specific fallback coming up empty. -/
def none_condition (env : DepEnv) (code : String) (dir : Dir) : Bool :=
  match env.deps with
  | none => true
  | some d =>
    (validPaths d).isEmpty &&
      (match dir with
       | .prerequisites => (parse_codes (rawPrereqs d)).isEmpty
       | .postrequisites => (dependentCourses env code).isEmpty)

/-- Environment with an empty course record. -/
def envC5none : DepEnv := { deps := none, courses := [] }

/-- Environment with one two-node prerequisite path. -/
def pathC5 : List PathNode :=
  [{ code := some "CS-101", title := some "T" },
   { code := some "MA-100", title := some "Math" }]

def depsC5 : DepsRec := { title := some "T", prereq_codes := none, paths := [pathC5] }

def envC5some : DepEnv := { deps := some depsC5, courses := [] }

/-! ## Sliding-window memory (`SlidingWindowMemory.extract_user_profile`,
util_func_1.py lines 498-565).

The regex heuristics are embedded as character-list scanners; `\w`, `isalpha`
and lowercasing are modelled over ASCII, which is what the regexes are written
for.  Python's unordered `set` of mentioned courses is modelled as an
insertion-ordered duplicate-free list (the extraction is deterministic, so the
representation is faithful to the set's contents). -/

/-- A chat message as stored in the history list. -/
structure Message where
  role : String
  content : String
deriving DecidableEq, Repr

/-- The `user_profile` sub-dict of `initialize_memory` (`career_goals` is
declared but never written by `extract_user_profile`). -/
structure UserProfile where
  name : Option String
  interests : List (String × ℚ)
  career_goals : List (String × ℚ)
  mentioned_courses : List String
deriving DecidableEq, Repr

def initProfile : UserProfile :=
  { name := none, interests := [], career_goals := [], mentioned_courses := [] }

/-- The regex word class `\w` (ASCII). -/
def isWordChar (c : Char) : Bool := c.isAlphanum || c == '_'

/-- The `(?:\s|$|[,.])` class required after the captured name word. -/
def tailOk : List Char → Bool
  | [] => true
  | c :: _ => c.isWhitespace || c == ',' || c == '.'

/-- `re.search` for `<lit>(\w+)`, optionally requiring the tail class: at each
position a maximal nonempty `\w+` run after the literal matches; otherwise the
search advances one character (backtracking the greedy `\w+` cannot satisfy
the tail class, so maximal-run-only is faithful). -/
def searchNameMatch (lit : List Char) (needTail : Bool) : List Char → Option (List Char)
  | [] => none
  | c :: rest =>
    if lit.isPrefixOf (c :: rest) then
      let after := (c :: rest).drop lit.length
      let run := after.takeWhile isWordChar
      if run ≠ [] ∧ (!needTail || tailOk (after.dropWhile isWordChar)) then some run
      else searchNameMatch lit needTail rest
    else searchNameMatch lit needTail rest

/-- The four name patterns in source order; the boolean marks the
`(?:\s|$|[,.])` tail of the `i am (\w+)` and `i'm (\w+)` patterns. -/
def namePatterns : List (List Char × Bool) :=
  [("my name is ".data, false), ("i am ".data, true),
   ("i\x27m ".data, true), ("call me ".data, false)]

def nameStoplist : List String := ["interested", "learning", "studying"]

/-- `len(name) > 1 and name.isalpha() and name.lower() not in [...]`
(the capture is already lowercase). -/
def nameValid (run : List Char) : Bool :=
  decide (1 < run.length) && run.all Char.isAlpha
    && !(nameStoplist.contains (String.mk run))

/-- The pattern loop: a pattern whose match validates sets the name and
breaks; an invalid match falls through to the next pattern (the `break` sits
inside the validation `if`). -/
def tryNamePatterns : List (List Char × Bool) → List Char → Option (List Char)
  | [], _ => none
  | (lit, nt) :: ps, s =>
    match searchNameMatch lit nt s with
    | some run => if nameValid run then some run else tryNamePatterns ps s
    | none => tryNamePatterns ps s

/-- `name.title()` on an all-alpha lowercase word. -/
def titleize : List Char → List Char
  | [] => []
  | c :: cs => c.toUpper :: cs

/-- Characters the interest capture group `[^.!?\n]+` may not contain. -/
def notStop (c : Char) : Bool := !(c == '.' || c == '!' || c == '?' || c == '\n')

/-- One attempted match of `<lit>(?:about )?([^.!?\n]+)` at the current
position, returning the captured run and the input remaining after the match.
The optional `about ` is taken greedily and given back when it would leave the
group empty (the group that then starts at `about` itself is nonempty). -/
def interestAt (lit : List Char) (optAbout : Bool) (s : List Char) :
    Option (List Char × List Char) :=
  if lit.isPrefixOf s then
    let after := s.drop lit.length
    let runSkip := (after.drop 6).takeWhile notStop
    if optAbout && "about ".data.isPrefixOf after && !runSkip.isEmpty then
      some (runSkip, (after.drop 6).dropWhile notStop)
    else
      let run := after.takeWhile notStop
      if run.isEmpty then none else some (run, after.dropWhile notStop)
  else none

/-- `re.findall`: scan left to right, collecting non-overlapping matches and
resuming after each match.  The fuel starts above the input length and every
step consumes at least one character, so the fuel only bounds the recursion
and never truncates the scan. -/
def findInterestsGo (lit : List Char) (optAbout : Bool) :
    Nat → List Char → List (List Char)
  | 0, _ => []
  | _, [] => []
  | Nat.succ fuel, c :: rest =>
    match interestAt lit optAbout (c :: rest) with
    | some (run, tail) => run :: findInterestsGo lit optAbout fuel tail
    | none => findInterestsGo lit optAbout fuel rest

def findInterests (lit : List Char) (optAbout : Bool) (s : List Char) :
    List (List Char) :=
  findInterestsGo lit optAbout (s.length + 1) s

/-- The four interest patterns with confidences, in source order; the boolean
marks the `(?:about )?` option of the `want to learn` pattern. -/
def interestPatterns : List (List Char × Bool × ℚ) :=
  [("interested in ".data, false, 9/10),
   ("want to learn ".data, true, 8/10),
   ("studying ".data, false, 85/100),
   ("passionate about ".data, false, 95/100)]

/-- `interests[k] = max(interests.get(k, 0), v)`, preserving dict insertion
order. -/
def updMax (k : String) (v : ℚ) : List (String × ℚ) → List (String × ℚ)
  | [] => [(k, v)]
  | (k2, v2) :: t => if k2 = k then (k2, max v2 v) :: t else (k2, v2) :: updMax k v t

def isUpperAZ (c : Char) : Bool := c.isUpper

/-- The trailing `\b`: end of input or a non-word character. -/
def boundaryOk : List Char → Bool
  | [] => true
  | c :: _ => !isWordChar c

/-- One attempted match of `[A-Z]{2,4}[-\s]?\d{2,3}\b` at the current position
(the scanner only tries it at a `\b` boundary): the greedy uppercase run must
have length 2..4 (a longer run leaves a letter after any 2..4-letter prefix,
failing the separator and digit classes), then an optional single
`-`/whitespace separator, then a 2- or 3-digit greedy run followed by a word
boundary (a digit run of any other length fails every backtracking
alternative, as does a consumed separator with failing digits). -/
def tryCodeAt (l : List Char) : Option (List Char × List Char) :=
  let letters := l.takeWhile isUpperAZ
  if 2 ≤ letters.length ∧ letters.length ≤ 4 then
    let r1 := l.drop letters.length
    let sep := match r1 with
      | c :: _ => if c == '-' || c.isWhitespace then [c] else []
      | [] => []
    let r2 := r1.drop sep.length
    let digits := r2.takeWhile Char.isDigit
    if (digits.length = 2 ∨ digits.length = 3)
        ∧ boundaryOk (r2.drop digits.length) then
      some (letters ++ sep ++ digits, r2.drop digits.length)
    else none
  else none

/-- `re.findall` for the course-code pattern: attempts start only at a word
boundary (start of input or after a non-word character); after a match the
scan resumes right after it, where the preceding digit rules out a fresh
boundary.  Fuel as in `findInterestsGo`. -/
def findCodesGo : Nat → Bool → List Char → List (List Char)
  | 0, _, _ => []
  | _, _, [] => []
  | Nat.succ fuel, bnd, c :: rest =>
    if bnd then
      match tryCodeAt (c :: rest) with
      | some (g, after) => g :: findCodesGo fuel false after
      | none => findCodesGo fuel (!isWordChar c) rest
    else findCodesGo fuel (!isWordChar c) rest

def findCodes (s : List Char) : List (List Char) :=
  findCodesGo (s.length + 1) true s

/-- `mentioned_courses.add(...)`: set insertion, modelled order-preserving. -/
def addCourseCode (code : String) (l : List String) : List String :=
  if code ∈ l then l else l ++ [code]

/-- `code.upper().replace(' ', '-')`. -/
def normalizeCode (g : List Char) : String :=
  String.mk ((g.map Char.toUpper).map (fun c => if c == ' ' then '-' else c))

/-- Python `str.strip` of an interest capture. -/
def trimChars (l : List Char) : String := pyStrip (String.mk l)

/-- The body of the `for msg in messages:` loop of `extract_user_profile` for
one user message: name patterns (only while no name is set) and interest
patterns run on `content.lower()`, course codes on the raw content. -/
def processUserMessage (p : UserProfile) (content : String) : UserProfile :=
  let cl := (pyLower content).data
  let p1 :=
    match p.name with
    | some _ => p
    | none =>
      match tryNamePatterns namePatterns cl with
      | some run => { p with name := some (String.mk (titleize run)) }
      | none => p
  let p2 := interestPatterns.foldl (fun acc pat =>
    (findInterests pat.1 pat.2.1 cl).foldl (fun acc2 raw =>
      let interest := trimChars raw
      if interest ≠ "" ∧ 2 < interest.length ∧ interest.length < 50 then
        { acc2 with interests := updMax interest pat.2.2 acc2.interests }
      else acc2) acc) p1
  (findCodes content.data).foldl (fun acc g =>
    { acc with mentioned_courses := addCourseCode (normalizeCode g) acc.mentioned_courses })
    p2

/-- Embedding of `SlidingWindowMemory.extract_user_profile` (util_func_1.py
lines 516-565): a fold over the message list that skips every message whose
role is not `"user"` (`if msg['role'] != 'user': continue`). -/
def extract_user_profile (ms : List Message) : UserProfile :=
  ms.foldl (fun p m => if m.role = "user" then processUserMessage p m.content else p)
    initProfile

/-- A message list with a single user message. -/
def msgsW1 : List Message := [{ role := "user", content := "hi" }]

/-- The same user messages interleaved with assistant and system messages. -/
def msgsW2 : List Message :=
  [{ role := "assistant", content := "hello there" },
   { role := "user", content := "hi" },
   { role := "system", content := "sys prompt" }]

/-! ## Database helpers over a pure graph state
(util_func_1.py lines 65-92, 111-153, 174-262, 640-797).

The Neo4j database is modelled by `GraphState`.  Two boolean parameters model
the only two failure events the Python code branches on: `driver` false models
`utils_def_1.driver` being `None` (the `if not driver:` guards), and `qfail`
models the session/query raising, which every helper catches with a bare
`except` returning its default.  Generated values (uuid4 mark ids) are passed
as parameters; Neo4j's `ORDER BY` timestamp clauses are abstracted to storage
order, which the claims under scrutiny do not touch. -/

/-- A `User` node: its username key plus the settable profile properties. -/
structure UserNode where
  username : String
  props : List (String × String)
deriving DecidableEq, Repr

/-- A `Course` node with the properties the modelled helpers read
(values are nullable). -/
structure Course where
  course_code : String
  course_title : Option String
  credits : Option String
  recommended_semester : Option String
  prereq_course_codes : Option String
deriving DecidableEq, Repr

/-- A `Mark` node (timestamp abstracted away). -/
structure Mark where
  username : String
  id : String
  subject : String
  marks_scored : ℚ
  total_marks : ℚ
  percentage : ℚ
deriving DecidableEq, Repr

/-- A stored `ChatMessage` node with its `HAS_MESSAGE` owner. -/
structure ChatEntry where
  user : String
  role : String
  content : String
  is_code : Bool
deriving DecidableEq, Repr

/-- The graph database state. -/
structure GraphState where
  users : List UserNode
  courses : List Course
  playlists : List String
  has_playlist : List (String × String)
  contains_edges : List (String × String)
  marks : List Mark
  chat : List ChatEntry
deriving DecidableEq, Repr

/-- Banker's rounding to an integer (Python `round`, modelled exactly). -/
def roundHalfEven (q : ℚ) : ℤ :=
  if q - ⌊q⌋ < 1/2 then ⌊q⌋
  else if 1/2 < q - ⌊q⌋ then ⌊q⌋ + 1
  else if ⌊q⌋ % 2 = 0 then ⌊q⌋ else ⌊q⌋ + 1

/-- Python `round(x, 2)` under exact arithmetic. -/
def pyRound2 (q : ℚ) : ℚ := (roundHalfEven (q * 100) : ℚ) / 100

/-- The message dict `load_chat_history` builds per record (the `is_code` key
is only added when truthy, modelled as a boolean field). -/
structure ChatOut where
  role : String
  content : String
  is_code : Bool
deriving DecidableEq, Repr

/-- `load_chat_history` (lines 65-92). -/
def load_chat_history (driver qfail : Bool) (st : GraphState) (username : String) :
    List ChatOut :=
  if !driver then []
  else if qfail then []
  else (st.chat.filter (fun e => e.user == username)).map
    (fun e => { role := e.role, content := e.content, is_code := e.is_code })

/-- `get_user_marks` (lines 209-227). -/
def get_user_marks (driver qfail : Bool) (st : GraphState) (username : String) :
    List Mark :=
  if !driver then []
  else if qfail then []
  else st.marks.filter (fun m => m.username == username)

/-- `(u)-[:HAS_PLAYLIST]->(p)-[:CONTAINS]->(c {course_code})` membership. -/
def inUserPlaylist (st : GraphState) (username code : String) : Bool :=
  st.has_playlist.any (fun e =>
    e.1 == username && st.contains_edges.contains (e.2, code))

/-- The semester filter of `get_user_playlist`
(`c.recommended_semester = $semester OR c.recommended_semester CONTAINS
$sem_str`); a null property satisfies neither disjunct. -/
def semMatches (sem : String) (c : Course) : Bool :=
  match c.recommended_semester with
  | none => false
  | some v => v == sem || substrIn sem.data v.data

/-- `get_user_playlist` (lines 640-695). -/
def get_user_playlist (driver qfail : Bool) (st : GraphState) (username : String)
    (semester : Option String) : List Course :=
  if !driver then []
  else if qfail then []
  else
    match semester with
    | some sem => (st.courses.filter
        (fun c => inUserPlaylist st username c.course_code)).filter (semMatches sem)
    | none => st.courses.filter (fun c => inUserPlaylist st username c.course_code)

/-- `get_user_profile` (lines 111-138): the user's node and mark count
(`single()` of an unmatched user is also `None`, on the success path). -/
def get_user_profile (driver qfail : Bool) (st : GraphState) (username : String) :
    Option (UserNode × Nat) :=
  if !driver then none
  else if qfail then none
  else
    match st.users.find? (fun u => u.username == username) with
    | none => none
    | some u => some (u, (st.marks.filter (fun m => m.username == username)).length)

/-- `SET u.{field} = $value` on the property map. -/
def setProp (field value : String) : List (String × String) → List (String × String)
  | [] => [(field, value)]
  | (f, v) :: t => if f = field then (f, value) :: t else (f, v) :: setProp field value t

/-- `save_user_profile` (lines 140-153). -/
def save_user_profile (driver qfail : Bool) (st : GraphState)
    (username field value : String) : Bool × GraphState :=
  if !driver then (false, st)
  else if qfail then (false, st)
  else (true, { st with users := st.users.map (fun u =>
    if u.username == username then { u with props := setProp field value u.props }
    else u) })

/-- The three Python return values of `save_marks`: `True`, `"exists"`,
`False`. -/
inductive SaveOutcome where
  | saved | already | failed
deriving DecidableEq, Repr

/-- The duplicate check `(u)-[:HAS_MARK]->(m:Mark {subject})`. -/
def mark_exists (st : GraphState) (username subject : String) : Bool :=
  st.marks.any (fun m => m.username == username && m.subject == subject)

/-- `save_marks` (lines 174-207): driver guard; duplicate check (first
session, may raise: `qfail1`); `percentage = round((ms/tm)*100, 2)` computed
before the write, raising `ZeroDivisionError` for `tm = 0`; then the
`MATCH (u) CREATE (m) ...` (second session, may raise: `qfail2`), which writes
one mark per matched user row.  Every raise is caught, returning `False` with
the state untouched. -/
def save_marks (driver qfail1 qfail2 : Bool) (st : GraphState)
    (mark_id username subject : String) (marks_scored total_marks : ℚ) :
    SaveOutcome × GraphState :=
  if !driver then (.failed, st)
  else if qfail1 then (.failed, st)
  else if mark_exists st username subject then (.already, st)
  else if total_marks = 0 then (.failed, st)
  else if qfail2 then (.failed, st)
  else if st.users.any (fun u => u.username == username) then
    (.saved, { st with marks := st.marks
      ++ [{ username := username, id := mark_id, subject := subject,
            marks_scored := marks_scored, total_marks := total_marks,
            percentage := pyRound2 (marks_scored / total_marks * 100) }] })
  else (.saved, st)

/-- `update_mark` (lines 244-262): the division precedes the session; the
`SET` updates the matched mark (a no-op for an unknown id) and the function
returns `True` either way. -/
def update_mark (driver qfail : Bool) (st : GraphState) (mark_id : String)
    (marks_scored total_marks : ℚ) : Bool × GraphState :=
  if !driver then (false, st)
  else if total_marks = 0 then (false, st)
  else if qfail then (false, st)
  else (true, { st with marks := st.marks.map (fun m =>
    if m.id == mark_id then
      { m with marks_scored := marks_scored, total_marks := total_marks,
               percentage := pyRound2 (marks_scored / total_marks * 100) }
    else m) })

/-- `get_playlist_count` (lines 784-797): `count(c)` counts the matched
pattern rows. -/
def get_playlist_count (driver qfail : Bool) (st : GraphState) (username : String) :
    Nat :=
  if !driver then 0
  else if qfail then 0
  else (st.has_playlist.filter (fun e => e.1 == username)).foldl
    (fun n e => n + (st.contains_edges.filter (fun ce => ce.1 == e.2)).length) 0

/-- The result dict of `add_to_playlist`; `course_details` carries the
course row whose code/title/credits/semester the Python dict exposes. -/
structure AddResult where
  success : Bool
  message : String
  course_details : Option Course
deriving DecidableEq, Repr

/-- The effect of the `MERGE` block: playlist node (keyed by id),
`HAS_PLAYLIST` and `CONTAINS` edges, each created only when absent. -/
def mergePlaylist (st : GraphState) (username code : String) : GraphState :=
  { st with
    playlists :=
      if (username ++ "_playlist") ∈ st.playlists then st.playlists
      else st.playlists ++ [username ++ "_playlist"]
    has_playlist :=
      if (username, username ++ "_playlist") ∈ st.has_playlist then st.has_playlist
      else st.has_playlist ++ [(username, username ++ "_playlist")]
    contains_edges :=
      if (username ++ "_playlist", code) ∈ st.contains_edges then st.contains_edges
      else st.contains_edges ++ [(username ++ "_playlist", code)] }

/-- Embedding of `add_to_playlist` (util_func_1.py lines 697-761): course
existence check, duplicate check, then the merge.  The merge query's
`MATCH (u:User ...)` matches no row for an unknown user, in which case nothing
is written though the function still reports success; `qfail` models the
session raising, caught into an error result. -/
def add_to_playlist (driver qfail : Bool) (st : GraphState)
    (username course_code : String) : AddResult × GraphState :=
  if !driver then
    ({ success := false, message := "Database connection error",
       course_details := none }, st)
  else if qfail then
    ({ success := false, message := "Error", course_details := none }, st)
  else
    match st.courses.find? (fun c => c.course_code == course_code) with
    | none =>
      ({ success := false, message := "Course not found", course_details := none }, st)
    | some c =>
      if inUserPlaylist st username course_code then
        ({ success := false, message := "Course already in playlist",
           course_details := none }, st)
      else if st.users.any (fun u => u.username == username) then
        ({ success := true, message := "Added " ++ course_code ++ " to playlist",
           course_details := some c }, mergePlaylist st username course_code)
      else
        ({ success := true, message := "Added " ++ course_code ++ " to playlist",
           course_details := some c }, st)

/-- A one-user, one-course state for the witnesses. -/
def courseW : Course :=
  { course_code := "CS-101", course_title := some "Intro", credits := some "4",
    recommended_semester := some "1", prereq_course_codes := none }

def stW : GraphState :=
  { users := [{ username := "alice", props := [] }],
    courses := [courseW],
    playlists := [], has_playlist := [], contains_edges := [],
    marks := [], chat := [] }

/-! ## Conversation detection and query processing
(`detect_casual_conversation`, `get_conversational_response`,
`process_user_query`, util_func_1.py lines 1286-1453).

The anchored regex alternations of `detect_casual_conversation` and
`get_conversational_response` are embedded as exact string predicates; the
unanchored course-code pattern `([A-Za-z]{2,}[-\s]?\d{2,3})` as a scanner in
the style of `findCodes`.  The database/LLM callees of `process_user_query`
are abstracted as oracle functions, since each closes over the Neo4j driver or
the embedding model. -/

/-- `^hey+$`: `he` followed by one or more `y`. -/
def heyPlus : List Char → Bool
  | 'h' :: 'e' :: ys => !ys.isEmpty && ys.all (fun c => c == 'y')
  | _ => false

/-- `^hii+$`: `hi` followed by one or more `i`. -/
def hiiPlus : List Char → Bool
  | 'h' :: 'i' :: is => !is.isEmpty && is.all (fun c => c == 'i')
  | _ => false

/-- The `casual_patterns` list, tried on the lowercased stripped input:
the anchored alternations, `^.{1,2}$` (1-2 non-newline characters) and
`^(.)\1{2,}$` (a non-newline character repeated at least three times). -/
def casualPatternsMatch (il : String) : Bool :=
  (il == "hi" || il == "hello" || heyPlus il.data || hiiPlus il.data
    || il == "sup" || il == "what\x27s up")
  || (il == "good morning" || il == "good afternoon" || il == "good evening")
  || (["ok", "okay", "yes", "no", "yep", "nope", "sure", "thanks",
       "thank you"].contains il)
  || (["who are you", "what are you", "what can you do"].contains il)
  || (decide (1 ≤ il.data.length) && decide (il.data.length ≤ 2)
      && il.data.all (fun c => !(c == '\n')))
  || (match il.data with
      | c :: rest => !(c == '\n') && decide (2 ≤ rest.length)
          && rest.all (fun c2 => c2 == c)
      | [] => false)

def course_keywords : List String :=
  ["course", "class", "job", "career", "study", "learn", "degree"]

/-- Embedding of `detect_casual_conversation` (lines 1286-1307). -/
def detect_casual_conversation (user_input : String) : Bool :=
  let il := pyStrip (pyLower user_input)
  casualPatternsMatch il
    || (decide (il.length < 4)
        && !(course_keywords.any (fun k => substrIn k.data il.data)))

/-- Embedding of `get_conversational_response` (lines 1309-1350). -/
def get_conversational_response (user_input : String) (username : Option String) :
    String :=
  let il := pyStrip (pyLower user_input)
  let uname := match username with
    | none => ""
    | some u => u
  let greeting := if uname = "" then "Hi there" else "Hi " ++ uname
  if il == "hi" || il == "hello" || heyPlus il.data || hiiPlus il.data then
    greeting ++ "!\n\nI\x27m your Jain University Course & Career Assistant. I\x27m here to help you explore:\n\n- Courses - Find courses that match your interests\n- Prerequisites - Discover what you need to study before advanced courses  \n- Career Paths - Explore job opportunities for Jain University graduates\n- Learning Pathways - Plan your academic journey\n- Your Playlist - View and manage your selected courses\n\nWhat would you like to know about? You can ask me things like:\n- \"What courses are available in Computer Science?\"\n- \"What are the prerequisites for Data Science?\"\n- \"What jobs can I get with an AI degree?\"\n- \"Show me my playlist for semester 3\"\n\nHow can I help you today?"
  else if il == "what\x27s up" || il == "sup" then
    "Not much " ++ (if uname = "" then "there" else uname) ++ "! Just here waiting to help Jain University students like you navigate their academic journey!\n\nI can help you discover courses, understand prerequisites, explore career opportunities, and plan your learning pathway.\n\nWhat\x27s on your mind? Looking for a specific course or career advice?"
  else
    "I\x27m not sure what you meant by that, but I\x27m here to help!\n\nI specialize in helping Jain University students with:\n- Course recommendations and information\n- Understanding prerequisites and dependencies\n- Career guidance and job opportunities  \n- Academic pathway planning\n\nTry asking me something like \"What courses are good for AI?\" or \"Show me computer science prerequisites\" and I\x27ll give you detailed, helpful information!\n\nWhat would you like to know about?"

/-- A job search result row. -/
structure JobRow where
  job_title : String
deriving DecidableEq, Repr

/-- The database/LLM-backed callees of `process_user_query`, abstracted as
oracles (each closes over the Neo4j driver or the embedding model in the
source). -/
structure QueryOracles where
  semantic_search_courses : String → Nat → List Course
  semantic_search_jobs : String → Nat → List JobRow
  build_dep_tree : String → Dir → Option String
  build_full_pathway_tree : String → Option String

/-- The results dict of `process_user_query` (the `conversational_response`
key is present only in the casual branch). -/
structure QueryResults where
  courses : List Course
  jobs : List JobRow
  ascii_tree : Option String
  search_type : String
  context : String
  specific_course : Option String
  conversational_response : Option String
deriving DecidableEq, Repr

def job_terms : List String :=
  ["job", "career", "work", "employment", "opportunity", "hire", "hiring",
   "profession", "industry", "vacancy", "recruitment"]

def prereq_terms : List String :=
  ["prerequisite", "prereq", "pre-req", "dependency", "requirement",
   "required before", "before taking", "needed before", "need to learn before",
   "must complete before", "foundation for", "prepare for", "pre req",
   "pre reqs", "pre recs"]

def postreq_terms : List String :=
  ["postrequisite", "postreq", "post-req", "leads to", "next", "after",
   "can take after", "follow-up", "advanced course", "what comes after",
   "continue with", "next step", "progress to", "post rec", "post recs",
   "post req", "post reqs"]

def pathway_terms : List String :=
  ["pathway", "learning path", "study path", "progression", "roadmap",
   "journey", "complete path", "full path", "learning journey", "entire path",
   "curriculum map", "flow", "syllabus flow", "track", "academic track"]

/-- `contains_any(text, terms)`. -/
def contains_any (text : String) (terms : List String) : Bool :=
  terms.any (fun t => substrIn t.data text.data)

/-- One attempted match of `[A-Za-z]{2,}[-\s]?\d{2,3}` (no word boundaries) at
the current position: a greedy letter run of length at least 2, an optional
single separator, then greedily 3 (else 2) digits. -/
def tryCode2At (l : List Char) : Option (List Char × List Char) :=
  let letters := l.takeWhile Char.isAlpha
  if 2 ≤ letters.length then
    let r1 := l.drop letters.length
    let sep := match r1 with
      | c :: _ => if c == '-' || c.isWhitespace then [c] else []
      | [] => []
    let r2 := r1.drop sep.length
    let digits := r2.takeWhile Char.isDigit
    if 2 ≤ digits.length then
      some (letters ++ sep ++ digits.take 3, r2.drop (min digits.length 3))
    else none
  else none

/-- `re.findall` for the unanchored course-code pattern of
`process_user_query`; fuel as in `findInterestsGo`. -/
def findCodes2Go : Nat → List Char → List (List Char)
  | 0, _ => []
  | _, [] => []
  | Nat.succ fuel, c :: rest =>
    match tryCode2At (c :: rest) with
    | some (g, after) => g :: findCodes2Go fuel after
    | none => findCodes2Go fuel rest

def findCodes2 (s : List Char) : List (List Char) :=
  findCodes2Go (s.length + 1) s

/-- Embedding of `process_user_query` (util_func_1.py lines 1356-1453). -/
def process_user_query (o : QueryOracles) (user_input : String)
    (username : Option String) : QueryResults :=
  if detect_casual_conversation user_input then
    { courses := [], jobs := [], ascii_tree := none,
      search_type := "casual_conversation", context := "jain_university",
      specific_course := none,
      conversational_response :=
        some (get_conversational_response user_input username) }
  else
    let input_lower := pyLower user_input
    let course_codes := findCodes2 user_input.data
    let course_results := o.semantic_search_courses user_input 10
    let is_job_query := contains_any input_lower job_terms
    let is_prereq_query := contains_any input_lower prereq_terms
    let is_postreq_query := contains_any input_lower postreq_terms
    let is_pathway_query := contains_any input_lower pathway_terms
    let base : QueryResults :=
      { courses := course_results, jobs := [], ascii_tree := none,
        search_type := "general", context := "jain_university",
        specific_course := none, conversational_response := none }
    if is_pathway_query then
      match course_codes with
      | g :: _ =>
        { base with
            search_type := "full_pathway",
            ascii_tree := o.build_full_pathway_tree (normalizeCode g),
            specific_course := some (normalizeCode g) }
      | [] =>
        match course_results with
        | c :: _ =>
          { base with
              search_type := "full_pathway",
              ascii_tree := o.build_full_pathway_tree c.course_code,
              specific_course := some c.course_code }
        | [] => { base with search_type := "full_pathway" }
    else if !course_codes.isEmpty && (is_prereq_query || is_postreq_query) then
      match course_codes with
      | g :: _ =>
        { base with
          ascii_tree := o.build_dep_tree (normalizeCode g)
            (if is_prereq_query then .prerequisites else .postrequisites),
          search_type := "dependency_"
            ++ (if is_prereq_query then "prerequisites" else "postrequisites"),
          specific_course := some (normalizeCode g) }
      | [] => base
    else if is_job_query then
      { base with
          jobs := o.semantic_search_jobs user_input 8,
          search_type := "job_search" }
    else if (is_prereq_query || is_postreq_query) && !course_results.isEmpty then
      match course_results with
      | c :: _ =>
        { base with
            search_type := "course_search",
            ascii_tree := o.build_dep_tree c.course_code
              (if is_prereq_query then .prerequisites else .postrequisites),
            specific_course := some c.course_code }
      | [] => { base with search_type := "course_search" }
    else
      match course_results with
      | c :: _ =>
        { base with
            search_type := "course_search",
            ascii_tree := o.build_dep_tree c.course_code .prerequisites }
      | [] => { base with search_type := "course_search" }

/-- Oracle instance returning nothing, for the witness. -/
def oracleW : QueryOracles :=
  { semantic_search_courses := fun _ _ => [],
    semantic_search_jobs := fun _ _ => [],
    build_dep_tree := fun _ _ => none,
    build_full_pathway_tree := fun _ => none }

/-! ### Theorems for the RIASEC section -/

theorem trait_responses_foldl_eq (ans : Answers) (L : List (String × Trait)) :
    ∀ (acc : Trait → List ℚ) (t : Trait),
      (L.foldl (collectStep ans) acc) t
        = acc t ++ (L.filter (fun p => p.2 = t)).map (fun p => (ans p.1).getD 0) := by
  induction L with
  | nil => intro acc t; simp
  | cons p L ih =>
    intro acc t
    rw [List.foldl_cons, ih]
    by_cases hp : p.2 = t
    · simp [collectStep, hp, List.filter_cons]
    · have ht : ¬ t = p.2 := fun h => hp h.symm
      simp [collectStep, hp, ht, List.filter_cons]

theorem trait_responses_eq (ans : Answers) (t : Trait) :
    trait_responses ans t
      = (RIASEC_QUESTIONS.filter (fun p => p.2 = t)).map (fun p => (ans p.1).getD 0) := by
  unfold trait_responses
  rw [trait_responses_foldl_eq]
  simp

theorem questions_for_ne_nil (t : Trait) : questions_for t ≠ [] := by
  cases t <;> decide

/-- C1. For every answers mapping, the per-trait score computed by
`calculate_riasec_scores` before normalization is the arithmetic mean of the
responses to that trait's fixed question list, a missing answer contributing 0;
the question list is the fixed 41-question table and each trait's list is
nonempty. -/
theorem riasec_raw_score_is_trait_mean (ans : Answers) (t : Trait) :
    raw_score ans t
        = ((questions_for t).map (fun q => ((ans q).getD 0 : ℚ))).sum
            / (questions_for t).length
      ∧ questions_for t ≠ [] ∧ RIASEC_QUESTIONS.length = 41 := by
  refine ⟨?_, questions_for_ne_nil t, by decide⟩
  have hne : trait_responses ans t ≠ [] := by
    rw [trait_responses_eq]
    intro h
    apply questions_for_ne_nil t
    unfold questions_for
    rcases List.map_eq_nil_iff.mp h with hf
    rw [hf]
    rfl
  unfold raw_score
  simp only [hne, if_neg, if_false]
  rw [trait_responses_eq]
  unfold questions_for
  simp only [List.map_map, List.length_map]
  rfl



/-- C2 counterexample: with one `+1` and one cancelling `-1` response (the
`/riasec` route passes request JSON to `calculate_riasec_scores` unvalidated),
the pre-normalization total is 0 yet the returned R score is `1/7`, not `0.0`:
when the total is 0 the function skips normalization and returns the raw
averages unchanged. -/
theorem riasec_zero_total_nonzero_score :
    riasec_total ansCex = 0 ∧ riasec_scores ansCex Trait.R ≠ 0 := by
  have hR : raw_score ansCex Trait.R = 1 / 7 := by
    simp only [raw_score]
    rw [(by decide : trait_responses ansCex Trait.R = ([1, 0, 0, 0, 0, 0, 0] : List ℚ))]
    rw [if_neg (by decide : ¬([1, 0, 0, 0, 0, 0, 0] : List ℚ) = [])]
    norm_num
  have hI : raw_score ansCex Trait.I = -(1 / 7) := by
    simp only [raw_score]
    rw [(by decide : trait_responses ansCex Trait.I = ([-1, 0, 0, 0, 0, 0, 0] : List ℚ))]
    rw [if_neg (by decide : ¬([-1, 0, 0, 0, 0, 0, 0] : List ℚ) = [])]
    norm_num
  have hA : raw_score ansCex Trait.A = 0 := by
    simp only [raw_score]
    rw [(by decide : trait_responses ansCex Trait.A = ([0, 0, 0, 0, 0, 0] : List ℚ))]
    rw [if_neg (by decide : ¬([0, 0, 0, 0, 0, 0] : List ℚ) = [])]
    norm_num
  have hS : raw_score ansCex Trait.S = 0 := by
    simp only [raw_score]
    rw [(by decide : trait_responses ansCex Trait.S = ([0, 0, 0, 0, 0, 0, 0] : List ℚ))]
    rw [if_neg (by decide : ¬([0, 0, 0, 0, 0, 0, 0] : List ℚ) = [])]
    norm_num
  have hE : raw_score ansCex Trait.E = 0 := by
    simp only [raw_score]
    rw [(by decide : trait_responses ansCex Trait.E = ([0, 0, 0, 0, 0, 0, 0] : List ℚ))]
    rw [if_neg (by decide : ¬([0, 0, 0, 0, 0, 0, 0] : List ℚ) = [])]
    norm_num
  have hC : raw_score ansCex Trait.C = 0 := by
    simp only [raw_score]
    rw [(by decide : trait_responses ansCex Trait.C = ([0, 0, 0, 0, 0, 0, 0] : List ℚ))]
    rw [if_neg (by decide : ¬([0, 0, 0, 0, 0, 0, 0] : List ℚ) = [])]
    norm_num
  have h0 : riasec_total ansCex = 0 := by
    simp only [riasec_total, traitList, List.map_cons, List.map_nil, List.sum_cons,
      List.sum_nil]
    rw [hR, hI, hA, hS, hE, hC]
    norm_num
  refine ⟨h0, ?_⟩
  have hnot : ¬ 0 < riasec_total ansCex := by rw [h0]; exact lt_irrefl 0
  simp only [riasec_scores, hnot, if_false]
  rw [hR]
  norm_num

/-- C2 (amended). Under exact rational arithmetic: whenever the
pre-normalization total of the six trait averages is positive, the six returned
scores sum to exactly 1.  When the total is 0 the normalization is skipped and
each returned score equals the raw trait average; in particular if every answer
value is nonnegative (for example every answer 0 or missing), a zero total
forces every returned score to be 0. -/
theorem riasec_normalization_spec (ans : Answers) :
    (0 < riasec_total ans → (traitList.map (riasec_scores ans)).sum = 1) ∧
    (riasec_total ans = 0 → ∀ t, riasec_scores ans t = raw_score ans t) ∧
    ((∀ q, 0 ≤ ((ans q).getD 0 : ℚ)) → riasec_total ans = 0 →
      ∀ t, riasec_scores ans t = 0) := by
  have hexp : riasec_total ans
      = raw_score ans .R + (raw_score ans .I + (raw_score ans .A +
        (raw_score ans .S + (raw_score ans .E + (raw_score ans .C + 0))))) := by
    simp [riasec_total, traitList]
  refine ⟨?_, ?_, ?_⟩
  · intro h
    have hT : riasec_total ans ≠ 0 := ne_of_gt h
    simp only [riasec_scores, if_pos h, traitList, List.map_cons, List.map_nil,
      List.sum_cons, List.sum_nil]
    field_simp
    linarith [hexp]
  · intro h0 t
    have hnot : ¬ 0 < riasec_total ans := by rw [h0]; exact lt_irrefl 0
    simp [riasec_scores, hnot]
  · intro hnn h0 t
    have hraw : ∀ u : Trait, 0 ≤ raw_score ans u := by
      intro u
      unfold raw_score
      by_cases hrs : trait_responses ans u = []
      · simp [hrs]
      · simp only [hrs, if_neg, if_false]
        apply div_nonneg
        · apply List.sum_nonneg
          intro x hx
          rw [trait_responses_eq] at hx
          rcases List.mem_map.mp hx with ⟨p, _, rfl⟩
          exact hnn p.1
        · exact_mod_cast Nat.zero_le _
    have hz : raw_score ans t = 0 := by
      rw [hexp] at h0
      cases t <;>
        linarith [hraw Trait.R, hraw Trait.I, hraw Trait.A, hraw Trait.S,
          hraw Trait.E, hraw Trait.C]
    have hnot : ¬ 0 < riasec_total ans := by rw [h0]; exact lt_irrefl 0
    simp [riasec_scores, hnot, hz]

/-- Witness for `riasec_normalization_spec` at the all-missing answers mapping. -/
theorem riasec_normalization_spec_witness :
    riasec_scores ansZero Trait.R = 0 := by
  have hz : ∀ t, raw_score ansZero t = 0 := by
    intro t
    have hall : ∀ x ∈ trait_responses ansZero t, x = 0 := by
      intro x hx
      rw [trait_responses_eq] at hx
      rcases List.mem_map.mp hx with ⟨p, _, rfl⟩
      rfl
    by_cases h : trait_responses ansZero t = []
    · simp [raw_score, h]
    · simp [raw_score, h, List.sum_eq_zero hall]
  have h0 : riasec_total ansZero = 0 := by
    simp [riasec_total, traitList, hz]
  exact (riasec_normalization_spec ansZero).2.2 (fun q => by simp [ansZero]) h0 Trait.R

theorem insertDesc_perm (x : Trait × ℚ) (l : List (Trait × ℚ)) :
    (insertDesc x l).Perm (x :: l) := by
  induction l with
  | nil => simp [insertDesc]
  | cons y ys ih =>
    unfold insertDesc
    by_cases h : y.2 < x.2
    · simp [h]
    · simp only [h, if_false]
      exact (List.Perm.cons y ih).trans (List.Perm.swap x y ys)

theorem sortDesc_foldl_perm (l : List (Trait × ℚ)) :
    ∀ acc, (l.foldl (fun acc x => insertDesc x acc) acc).Perm (acc ++ l) := by
  induction l with
  | nil => intro acc; simp
  | cons x xs ih =>
    intro acc
    rw [List.foldl_cons]
    refine (ih _).trans ?_
    refine ((insertDesc_perm x acc).append_right xs).trans ?_
    exact List.perm_middle.symm

theorem sortDesc_perm (l : List (Trait × ℚ)) : (sortDesc l).Perm l := by
  unfold sortDesc
  simpa using sortDesc_foldl_perm l []

theorem insertDesc_pairwise (x : Trait × ℚ) (l : List (Trait × ℚ))
    (h : l.Pairwise (fun a b => b.2 ≤ a.2)) :
    (insertDesc x l).Pairwise (fun a b => b.2 ≤ a.2) := by
  induction l with
  | nil => simp [insertDesc]
  | cons y ys ih =>
    rcases List.pairwise_cons.mp h with ⟨hy, hys⟩
    unfold insertDesc
    by_cases hlt : y.2 < x.2
    · simp only [hlt, if_true]
      refine List.pairwise_cons.mpr ⟨?_, h⟩
      intro z hz
      rcases List.mem_cons.mp hz with rfl | hz
      · exact le_of_lt hlt
      · exact le_trans (hy z hz) (le_of_lt hlt)
    · simp only [hlt, if_false]
      refine List.pairwise_cons.mpr ⟨?_, ih hys⟩
      intro z hz
      rcases List.mem_cons.mp ((insertDesc_perm x ys).mem_iff.mp hz) with rfl | hz
      · exact not_lt.mp hlt
      · exact hy z hz

theorem sortDesc_pairwise (l : List (Trait × ℚ)) :
    (sortDesc l).Pairwise (fun a b => b.2 ≤ a.2) := by
  unfold sortDesc
  suffices h : ∀ acc, acc.Pairwise (fun a b => b.2 ≤ a.2) →
      (l.foldl (fun acc x => insertDesc x acc) acc).Pairwise (fun a b => b.2 ≤ a.2) by
    exact h [] (by simp)
  induction l with
  | nil => intro acc h; simpa using h
  | cons x xs ih =>
    intro acc h
    rw [List.foldl_cons]
    exact ih _ (insertDesc_pairwise x acc h)

/-- C3. For every answers mapping, `calculate_riasec_scores` returns a
`riasec_vector` that is the length-6 list of the normalized scores in the fixed
order R, I, A, S, E, C, and a `top3` of exactly three distinct trait codes in
descending score order such that every trait outside `top3` scores no higher
than any trait inside it. -/
theorem calculate_riasec_top3_spec (ans : Answers) :
    (calculate_riasec_scores ans).riasec_vector
        = [riasec_scores ans .R, riasec_scores ans .I, riasec_scores ans .A,
           riasec_scores ans .S, riasec_scores ans .E, riasec_scores ans .C] ∧
    (calculate_riasec_scores ans).top3.length = 3 ∧
    (calculate_riasec_scores ans).top3.Nodup ∧
    (calculate_riasec_scores ans).top3.Pairwise
      (fun a b => riasec_scores ans b ≤ riasec_scores ans a) ∧
    ∀ t : Trait, t ∉ (calculate_riasec_scores ans).top3 →
      ∀ u ∈ (calculate_riasec_scores ans).top3,
        riasec_scores ans t ≤ riasec_scores ans u := by
  have htop : (calculate_riasec_scores ans).top3
      = ((sortDesc (traitList.map (fun t => (t, riasec_scores ans t)))).take 3).map
          Prod.fst := rfl
  set pairs := traitList.map (fun t => (t, riasec_scores ans t)) with hpairs
  set sorted := sortDesc pairs with hsorted
  have hperm : sorted.Perm pairs := sortDesc_perm pairs
  have hlen6 : sorted.length = 6 := by
    rw [hperm.length_eq, hpairs]
    simp [traitList]
  have hsort : List.Pairwise (fun a b => b.2 ≤ a.2) sorted := sortDesc_pairwise pairs
  have hsnd : ∀ p ∈ sorted, p.2 = riasec_scores ans p.1 := by
    intro p hp
    rcases List.mem_map.mp (hperm.mem_iff.mp hp) with ⟨t, _, rfl⟩
    rfl
  have hfst : pairs.map Prod.fst = traitList := by
    rw [hpairs]
    simp [traitList]
  have hnodup_sorted_fst : (sorted.map Prod.fst).Nodup := by
    have hp : (sorted.map Prod.fst).Perm (pairs.map Prod.fst) := hperm.map Prod.fst
    rw [hfst] at hp
    exact hp.nodup_iff.mpr (by decide)
  refine ⟨rfl, ?_, ?_, ?_, ?_⟩
  · rw [htop, List.length_map, List.length_take, hlen6]
    decide
  · rw [htop, List.map_take]
    exact (List.take_sublist 3 _).nodup hnodup_sorted_fst
  · rw [htop]
    have htake : (sorted.take 3).Pairwise (fun a b => b.2 ≤ a.2) :=
      hsort.sublist (List.take_sublist 3 sorted)
    refine List.pairwise_map.mpr (htake.imp_of_mem ?_)
    intro a b ha hb hr
    rw [← hsnd a (List.take_subset _ _ ha), ← hsnd b (List.take_subset _ _ hb)]
    exact hr
  · intro t ht u hu
    rw [htop] at ht hu
    rcases List.mem_map.mp hu with ⟨pu, hpu, rfl⟩
    have htp : (t, riasec_scores ans t) ∈ pairs := by
      rw [hpairs]
      cases t <;> simp [traitList]
    have hts : (t, riasec_scores ans t) ∈ sorted := hperm.mem_iff.mpr htp
    have hsplit : sorted = sorted.take 3 ++ sorted.drop 3 :=
      (List.take_append_drop 3 sorted).symm
    have htd : (t, riasec_scores ans t) ∈ sorted.drop 3 := by
      rcases List.mem_append.mp (hsplit ▸ hts) with h | h
      · exact absurd (List.mem_map_of_mem Prod.fst h) ht
      · exact h
    have hpw : List.Pairwise (fun a b => b.2 ≤ a.2) (sorted.take 3 ++ sorted.drop 3) := by
      rw [List.take_append_drop 3 sorted]
      exact hsort
    have hcross := (List.pairwise_append.mp hpw).2.2
    have hle := hcross pu hpu (t, riasec_scores ans t) htd
    rw [hsnd pu (List.take_subset _ _ hpu)] at hle
    exact hle

/-- Witness for `calculate_riasec_top3_spec`: with every question answered 1,
Social is outside the (stable) top3 while Realistic is inside, and its score is
no larger. -/
theorem calculate_riasec_top3_spec_witness :
    riasec_scores ansOne Trait.S ≤ riasec_scores ansOne Trait.R := by
  have hone : ∀ t, raw_score ansOne t = 1 := by
    intro t
    have hne : trait_responses ansOne t ≠ [] := by
      rw [trait_responses_eq]
      intro h
      apply questions_for_ne_nil t
      unfold questions_for
      rw [List.map_eq_nil_iff.mp h]
      rfl
    have hall : ∀ x ∈ trait_responses ansOne t, x = 1 := by
      intro x hx
      rw [trait_responses_eq] at hx
      rcases List.mem_map.mp hx with ⟨p, _, rfl⟩
      rfl
    have hrep := List.eq_replicate_of_mem hall
    simp only [raw_score, hne, if_neg, if_false]
    rw [hrep, List.sum_replicate, List.length_replicate, nsmul_eq_mul, mul_one]
    have hlen : ((trait_responses ansOne t).length : ℚ) ≠ 0 := by
      exact_mod_cast fun h => hne (List.length_eq_zero.mp h)
    exact div_self hlen
  have htot : riasec_total ansOne = 6 := by
    simp only [riasec_total, traitList, List.map_cons, List.map_nil, List.sum_cons,
      List.sum_nil, hone]
    norm_num
  have hs6 : ∀ t, riasec_scores ansOne t = 1 / 6 := by
    intro t
    simp only [riasec_scores]
    rw [if_pos (by rw [htot]; norm_num), hone t, htot]
  have hp : traitList.map (fun t => (t, riasec_scores ansOne t))
      = [(Trait.R, 1 / 6), (Trait.I, 1 / 6), (Trait.A, 1 / 6), (Trait.S, 1 / 6),
         (Trait.E, 1 / 6), (Trait.C, 1 / 6)] := by
    simp [traitList, hs6]
  have htop : (calculate_riasec_scores ansOne).top3 = [Trait.R, Trait.I, Trait.A] := by
    show ((sortDesc (traitList.map (fun t => (t, riasec_scores ansOne t)))).take 3).map
        Prod.fst = _
    rw [hp]
    norm_num [sortDesc, insertDesc]
  exact (calculate_riasec_top3_spec ansOne).2.2.2.2 Trait.S (by rw [htop]; decide)
    Trait.R (by rw [htop]; decide)

/-! ### Theorems for the dependency tree renderer -/

theorem Forest.render_length (f : Forest) :
    ∀ (pre : String) (first : Bool), (f.render pre first).length = f.count := by
  induction f with
  | nil => intro pre first; rfl
  | cons n c r ihc ihr =>
    intro pre first
    by_cases hc : c = Forest.nil
    · subst hc
      simp only [Forest.render, Forest.count, ne_eq, not_true_eq_false, if_false,
        List.nil_append, List.length_cons, ihr]
      omega
    · simp only [Forest.render, Forest.count, ne_eq, hc, not_false_eq_true, if_true,
        List.length_cons, List.length_append, ihc, ihr]
      omega

/-- C4. The dependency renderer performs only bounded path collection and
recursive string formatting: `get_course_dependencies` collects `REQUIRES`
paths of between 1 and 5 hops (the `[:REQUIRES*1..5]` pattern of its Cypher
text, reflected here as the finite path list of the environment), and for
every finite list of such paths the `render_tree` recursion of
`build_dependency_tree` terminates — it is a total structural recursion on the
finite trie built from the paths — emitting exactly one output line per
distinct trie node; the renderer performs no cycle detection of its own. -/
theorem dependency_render_one_line_per_node (paths : List (List PathNode))
    (pre : String) (first : Bool) :
    ((buildForest paths).render pre first).length = (buildForest paths).count :=
  Forest.render_length (buildForest paths) pre first

theorem joinLines_header (code : String) (d : DepsRec) (rest : List String) :
    joinLines (headerBlock code d ++ rest) ≠ "" ∧
    ("📚 " ++ code ++ " - ").data <+:
      (joinLines (headerBlock code d ++ rest)).data := by
  have hjoin : joinLines (headerBlock code d ++ rest)
      = ("📚 " ++ headerOf code d) ++ "\n"
        ++ joinLines
            (String.mk (List.replicate ((headerOf code d).length + 4) '─') :: rest) := by
    rfl
  have hdata : (joinLines (headerBlock code d ++ rest)).data
      = "📚 ".data ++ (code.data ++ (" - ".data ++ ((orTitle d.title).data
        ++ ("\n" ++ joinLines
            (String.mk (List.replicate ((headerOf code d).length + 4) '─') :: rest)).data))) := by
    rw [hjoin]
    simp [headerOf, String.data_append, List.append_assoc]
  constructor
  · intro h
    have hd : (joinLines (headerBlock code d ++ rest)).data = [] := by rw [h]
    rw [hdata] at hd
    have hpic : "📚 ".data = ['📚', ' '] := rfl
    rw [hpic] at hd
    simp at hd
  · refine ⟨(orTitle d.title).data
      ++ ("\n" ++ joinLines
          (String.mk (List.replicate ((headerOf code d).length + 4) '─') :: rest)).data, ?_⟩
    rw [hdata]
    simp [String.data_append, List.append_assoc]

/-- C5. `build_dependency_tree` returns `None` exactly when the course lookup
yields an empty record, or when no collected dependency path has more than one
node and additionally, in the prerequisites direction, the course's
`prereq_course_codes` string parses to no codes, or, in the postrequisites
direction, no course's `prereq_course_codes` string contains the queried
course code; in every other case it returns a non-empty string whose first
line names the queried course. -/
theorem build_dependency_tree_spec (env : DepEnv) (code : String) (dir : Dir) :
    (build_dependency_tree env code dir = none ↔
      none_condition env code dir = true) ∧
    (∀ s, build_dependency_tree env code dir = some s →
      s ≠ "" ∧ ("📚 " ++ code ++ " - ").data <+: s.data) := by
  rcases henv : env.deps with _ | d
  · constructor
    · simp [build_dependency_tree, build_dependency_tree_lines, none_condition, henv]
    · intro s hs
      simp [build_dependency_tree, build_dependency_tree_lines, henv] at hs
  · by_cases hvp : (validPaths d).isEmpty
    · cases dir with
      | prerequisites =>
        by_cases hcodes : (parse_codes (rawPrereqs d)).isEmpty
        · constructor
          · simp [build_dependency_tree, build_dependency_tree_lines, none_condition,
              henv, hvp, hcodes]
          · intro s hs
            simp [build_dependency_tree, build_dependency_tree_lines, henv, hvp,
              hcodes] at hs
        · constructor
          · simp [build_dependency_tree, build_dependency_tree_lines, none_condition,
              henv, hvp, hcodes]
          · intro s hs
            have hsval : joinLines (prereqFallbackLines env code d
                (parse_codes (rawPrereqs d))) = s := by
              simpa [build_dependency_tree, build_dependency_tree_lines, henv, hvp,
                hcodes] using hs
            rw [← hsval]
            have hfb : prereqFallbackLines env code d (parse_codes (rawPrereqs d))
                = headerBlock code d ++ (["Prerequisites:"]
                    ++ connLines ((parse_codes (rawPrereqs d)).map (fun cd =>
                        cd ++ " - " ++ (if titleFor env cd = ""
                          then "[Title not available]" else titleFor env cd)))) := by
              simp only [prereqFallbackLines, List.append_assoc]
            rw [hfb]
            exact joinLines_header code d _
      | postrequisites =>
        by_cases hdcs : (dependentCourses env code).isEmpty
        · constructor
          · simp [build_dependency_tree, build_dependency_tree_lines, none_condition,
              henv, hvp, hdcs]
          · intro s hs
            simp [build_dependency_tree, build_dependency_tree_lines, henv, hvp,
              hdcs] at hs
        · constructor
          · simp [build_dependency_tree, build_dependency_tree_lines, none_condition,
              henv, hvp, hdcs]
          · intro s hs
            have hsval : joinLines (postreqFallbackLines code d
                (dependentCourses env code)) = s := by
              simpa [build_dependency_tree, build_dependency_tree_lines, henv, hvp,
                hdcs] using hs
            rw [← hsval]
            have hfb : postreqFallbackLines code d (dependentCourses env code)
                = headerBlock code d ++ (["Courses This Unlocks:"]
                    ++ connLines ((dependentCourses env code).map (fun c =>
                        c.course_code ++ " - " ++ orTitle c.course_title))) := by
              simp only [postreqFallbackLines, List.append_assoc]
            rw [hfb]
            exact joinLines_header code d _
    · constructor
      · simp [build_dependency_tree, build_dependency_tree_lines, none_condition,
          henv, hvp]
      · intro s hs
        have hsval : joinLines (treeLines code dir d) = s := by
          simpa [build_dependency_tree, build_dependency_tree_lines, henv, hvp]
            using hs
        rw [← hsval]
        have hfb : treeLines code dir d
            = headerBlock code d ++ ([dirLabel dir ++ ":"]
                ++ (buildForest (validPaths d)).render "" true) := by
          simp only [treeLines, List.append_assoc]
        rw [hfb]
        exact joinLines_header code d _

/-- Witness for `build_dependency_tree_spec`: an empty course record yields
`None`, and a concrete two-node path yields a string headed by the queried
course. -/
theorem build_dependency_tree_spec_witness :
    build_dependency_tree envC5none "CS-101" Dir.prerequisites = none ∧
    ("📚 " ++ "CS-101" ++ " - ").data <+:
      ("📚 CS-101 - T\n──────────────\nPrerequisites:\n    MA-100 - Math").data :=
  ⟨(build_dependency_tree_spec envC5none "CS-101" Dir.prerequisites).1.mpr (by decide),
   ((build_dependency_tree_spec envC5some "CS-101" Dir.prerequisites).2
      "📚 CS-101 - T\n──────────────\nPrerequisites:\n    MA-100 - Math"
      (by decide)).2⟩

/-! ### Theorems for the sliding-window memory -/

theorem extract_foldl_filter (ms : List Message) :
    ∀ p, ms.foldl
        (fun p m => if m.role = "user" then processUserMessage p m.content else p) p
      = ((ms.filter (fun m => m.role == "user")).map Message.content).foldl
          processUserMessage p := by
  induction ms with
  | nil => intro p; rfl
  | cons m t ih =>
    intro p
    rw [List.foldl_cons, List.filter_cons]
    by_cases h : m.role = "user"
    · simp [h, ih]
    · simp [h, ih]

/-- C6. `SlidingWindowMemory.extract_user_profile` depends only on the
user-role messages: any two message lists agreeing on the contents (in order)
of their user-role subsequences — however they differ in messages of other
roles — extract equal profiles (name, interests, career goals, mentioned
courses). -/
theorem extract_user_profile_user_messages_only (ms1 ms2 : List Message)
    (h : (ms1.filter (fun m => m.role == "user")).map Message.content
       = (ms2.filter (fun m => m.role == "user")).map Message.content) :
    extract_user_profile ms1 = extract_user_profile ms2 := by
  unfold extract_user_profile
  rw [extract_foldl_filter, extract_foldl_filter, h]

/-- Witness for `extract_user_profile_user_messages_only`: adding assistant
and system messages around the same single user message leaves the profile
unchanged. -/
theorem extract_user_profile_user_messages_only_witness :
    extract_user_profile msgsW1 = extract_user_profile msgsW2 :=
  extract_user_profile_user_messages_only msgsW1 msgsW2 (by rfl)

/-! ### Theorems for the database helpers -/

/-- C7. For an existing user, `add_to_playlist` keeps the playlist a
duplicate-free per-user saved-course list: an unknown course code yields
`success=False` with "Course not found" and no change; a course already linked
to the user's playlist yields `success=False` with "Course already in
playlist" and no change; otherwise the single playlist node
`"<username>_playlist"` is merged, linked to the user and the course, the
call returns `success=True` with the course's details, and a duplicate-free
`CONTAINS` edge set stays duplicate-free. -/
theorem add_to_playlist_spec (st : GraphState) (username code : String)
    (hu : st.users.any (fun u => u.username == username) = true) :
    (st.courses.find? (fun c => c.course_code == code) = none →
      add_to_playlist true false st username code
        = ({ success := false, message := "Course not found",
             course_details := none }, st)) ∧
    (∀ c, st.courses.find? (fun c => c.course_code == code) = some c →
      inUserPlaylist st username code = true →
      add_to_playlist true false st username code
        = ({ success := false, message := "Course already in playlist",
             course_details := none }, st)) ∧
    (∀ c, st.courses.find? (fun c => c.course_code == code) = some c →
      inUserPlaylist st username code = false →
      add_to_playlist true false st username code
        = ({ success := true, message := "Added " ++ code ++ " to playlist",
             course_details := some c }, mergePlaylist st username code)
        ∧ (st.contains_edges.Nodup →
            (mergePlaylist st username code).contains_edges.Nodup)) := by
  refine ⟨?_, ?_, ?_⟩
  · intro hfind
    simp [add_to_playlist, hfind]
  · intro c hfind hin
    simp [add_to_playlist, hfind, hin]
  · intro c hfind hin
    constructor
    · simp [add_to_playlist, hfind, hin, hu]
    · intro hnd
      unfold mergePlaylist
      by_cases hmem : (username ++ "_playlist", code) ∈ st.contains_edges
      · simpa [hmem] using hnd
      · simp only [hmem, if_false]
        rw [List.nodup_append]
        exact ⟨hnd, List.nodup_singleton _, by simpa using hmem⟩

/-- Witness for `add_to_playlist_spec`: adding an existing course to an
existing user's empty playlist succeeds and merges the playlist node. -/
theorem add_to_playlist_spec_witness :
    add_to_playlist true false stW "alice" "CS-101"
      = ({ success := true, message := "Added " ++ "CS-101" ++ " to playlist",
           course_details := some courseW }, mergePlaylist stW "alice" "CS-101") :=
  ((add_to_playlist_spec stW "alice" "CS-101" (by rfl)).2.2 courseW (by rfl)
    (by rfl)).1

/-- C8. Every modelled database helper follows the guard-and-default failure
pattern and lets no exception escape: with the driver unavailable or the query
raising, `load_chat_history`, `get_user_marks` and `get_user_playlist` return
`[]`, `get_user_profile` returns `None`, `save_marks` and `save_user_profile`
return a falsy result, `get_playlist_count` returns `0`, and the state is
returned unchanged (and unread: the defaults do not depend on it). -/
theorem db_helpers_guard_and_default (driver qfail : Bool)
    (h : driver = false ∨ qfail = true) (st : GraphState)
    (username subject field value mark_id : String) (sem : Option String)
    (ms tm : ℚ) :
    load_chat_history driver qfail st username = [] ∧
    get_user_marks driver qfail st username = [] ∧
    get_user_playlist driver qfail st username sem = [] ∧
    get_user_profile driver qfail st username = none ∧
    save_marks driver qfail qfail st mark_id username subject ms tm
      = (.failed, st) ∧
    save_user_profile driver qfail st username field value = (false, st) ∧
    get_playlist_count driver qfail st username = 0 := by
  rcases h with h | h
  · subst h
    simp [load_chat_history, get_user_marks, get_user_playlist, get_user_profile,
      save_marks, save_user_profile, get_playlist_count]
  · subst h
    cases driver <;>
      simp [load_chat_history, get_user_marks, get_user_playlist, get_user_profile,
        save_marks, save_user_profile, get_playlist_count]

/-- Witness for `db_helpers_guard_and_default` with the driver unavailable. -/
theorem db_helpers_guard_and_default_witness :
    load_chat_history false false stW "alice" = [] :=
  (db_helpers_guard_and_default false false (Or.inl rfl) stW "alice" "math"
    "bio" "hello" "m1" none 5 10).1

/-- C9. `save_marks` and `update_mark` compute
`percentage = round((marks_scored / total_marks) * 100, 2)` with no zero
guard: past the duplicate check and for an existing user, a nonzero total
stores exactly that rounded percentage, while a zero total raises
`ZeroDivisionError` before every write; the bare `except` turns it into
`False` and no `Mark` node is created or modified. -/
theorem marks_zero_guard_spec (st : GraphState) (mark_id username subject : String)
    (ms tm : ℚ) :
    (mark_exists st username subject = false → tm = 0 →
      save_marks true false false st mark_id username subject ms tm
        = (.failed, st)) ∧
    (mark_exists st username subject = false → tm ≠ 0 →
      st.users.any (fun u => u.username == username) = true →
      save_marks true false false st mark_id username subject ms tm
        = (.saved, { st with marks := st.marks
            ++ [{ username := username, id := mark_id, subject := subject,
                  marks_scored := ms, total_marks := tm,
                  percentage := pyRound2 (ms / tm * 100) }] })) ∧
    (tm = 0 → update_mark true false st mark_id ms tm = (false, st)) ∧
    (tm ≠ 0 → update_mark true false st mark_id ms tm
      = (true, { st with marks := st.marks.map (fun m =>
          if m.id == mark_id then
            { m with marks_scored := ms, total_marks := tm,
                     percentage := pyRound2 (ms / tm * 100) }
          else m) })) := by
  refine ⟨?_, ?_, ?_, ?_⟩
  · intro hex h0
    simp [save_marks, hex, h0]
  · intro hex h0 huser
    simp [save_marks, hex, h0, huser]
  · intro h0
    simp [update_mark, h0]
  · intro h0
    simp [update_mark, h0]

/-- Witness for `marks_zero_guard_spec`: a zero total makes `save_marks` fail
without touching the state. -/
theorem marks_zero_guard_spec_witness :
    save_marks true false false stW "m1" "alice" "math" 5 0
      = (.failed, stW) :=
  (marks_zero_guard_spec stW "m1" "alice" "math" 5 0).1 (by rfl) rfl

/-! ### Theorems for conversation detection -/

theorem substrIn_length {needle : List Char} : ∀ {hay : List Char},
    substrIn needle hay = true → needle.length ≤ hay.length := by
  intro hay
  induction hay with
  | nil =>
    intro h
    rw [substrIn] at h
    exact (List.isPrefixOf_iff_prefix.mp h).length_le
  | cons c t ih =>
    intro h
    rw [substrIn, Bool.or_eq_true] at h
    rcases h with h | h
    · exact (List.isPrefixOf_iff_prefix.mp h).length_le
    · exact le_trans (ih h) (by simp)

/-- C10. `detect_casual_conversation` returns `True` for every input whose
lowercased stripped form has at most two characters (the empty string
included: no course keyword of length at least 3 can occur in it, so the
short-input fallback fires), and `process_user_query` then classifies the
input as `casual_conversation` with empty course and job lists, a `None`
ascii tree and the canned conversational response — for every search oracle,
so no search is issued. -/
theorem detect_casual_short_inputs (user_input : String)
    (h : (pyStrip (pyLower user_input)).length ≤ 2) :
    detect_casual_conversation user_input = true ∧
    ∀ (o : QueryOracles) (username : Option String),
      process_user_query o user_input username
        = { courses := [], jobs := [], ascii_tree := none,
            search_type := "casual_conversation", context := "jain_university",
            specific_course := none,
            conversational_response :=
              some (get_conversational_response user_input username) } := by
  have hkw : course_keywords.any
      (fun k => substrIn k.data (pyStrip (pyLower user_input)).data) = false := by
    rw [List.any_eq_false]
    intro k hk
    intro habs
    have hlen := substrIn_length habs
    have hklen : 3 ≤ k.data.length := by
      simp only [course_keywords, List.mem_cons, List.not_mem_nil, or_false] at hk
      rcases hk with rfl | rfl | rfl | rfl | rfl | rfl | rfl <;> decide
    have hil : (pyStrip (pyLower user_input)).data.length ≤ 2 := h
    omega
  have hdet : detect_casual_conversation user_input = true := by
    unfold detect_casual_conversation
    rw [Bool.or_eq_true]
    right
    rw [Bool.and_eq_true]
    constructor
    · exact decide_eq_true (by omega)
    · rw [hkw]
      rfl
  refine ⟨hdet, ?_⟩
  intro o username
  simp [process_user_query, hdet]

/-- Witness for `detect_casual_short_inputs` at the input `"hi"`. -/
theorem detect_casual_short_inputs_witness :
    (process_user_query oracleW "hi" none).search_type = "casual_conversation" := by
  rw [(detect_casual_short_inputs "hi" (by decide)).2 oracleW none]
